import Mathlib

/-!
Verification of the access-control, fork, revision and lifecycle logic of
the Serrano resource layer (`serrano/resources/query.py`,
`serrano/resources/view.py`).

The Django ORM is embedded shallowly: a database table is a `List` of
records, `QuerySet.filter` is `List.filter`, `QuerySet.get` on a unique key
is `List.find?`, `order_by('-accessed')` is a stable sort on the
`accessed` field, and `.distinct()` is `List.dedup`.  A Django request is a
structure carrying the optional `request.user` (present even when it is the
unauthenticated `AnonymousUser`, whose `is_authenticated()` is false) and
the optional `request.session.session_key` (Python-falsy when `None` or
empty).  Handlers that perform side effects (mail, row deletion, usage
logging) return an explicit trace of effects next to the updated table.
-/

namespace Serrano

/-- A Django auth user as the resources see it: primary key, email address,
and the result of `is_authenticated()` (false exactly for `AnonymousUser`). -/
structure PyUser where
  id : Nat
  email : String
  is_auth : Bool
deriving DecidableEq

/-- The request context used by the resources: `user` is `none` when the
`request.user` attribute is absent (`getattr(request, 'user', None)` is
`None`), and `some u` when present — including the anonymous case where
`u.is_auth = false`; `session_key` models `request.session.session_key`. -/
structure Request where
  user : Option PyUser
  session_key : Option String
deriving DecidableEq

/-- A `DataQuery` row with the fields the serrano resources touch. -/
structure DataQuery where
  pk : Nat
  user : Option PyUser
  session_key : Option String
  session : Bool
  public : Bool
  shared_users : List PyUser
  parent : Option Nat
  accessed : Nat
  name : String
  description : String
  view_json : String
  context_json : String
deriving DecidableEq

/-- Truthiness of `request.session.session_key`: `None` and the empty
string are falsy in Python. -/
def truthyKey : Option String → Bool
  | some k => !(k == "")
  | none => false

/-- The guard `getattr(request, 'user', None) and request.user.is_authenticated()`
used throughout `query.py` and `view.py`. -/
def hasAuthUser (r : Request) : Bool :=
  match r.user with
  | some u => u.is_auth
  | none => false

/-- The pk of `request.user` when the attribute is present. -/
def requestUserPk (r : Request) : Option Nat :=
  r.user.map PyUser.id

/-- QueryBase.get_queryset (query.py lines 78–91): filter by
`user=request.user` for an authenticated user, else by
`session_key=request.session.session_key` when a session key exists, else
return the empty queryset (`objects.none()`). -/
def get_queryset (db : List DataQuery) (r : Request) : List DataQuery :=
  if hasAuthUser r then
    db.filter (fun q => q.user == r.user)
  else if truthyKey r.session_key then
    db.filter (fun q => q.session_key == r.session_key)
  else
    []

/-- QueryResource.get_object (query.py lines 246–258), pk branch:
`self.get_queryset(request).get(pk=pk)`, returning `None` on
`DoesNotExist`. -/
def get_object (db : List DataQuery) (r : Request) (pk : Nat) : Option DataQuery :=
  (get_queryset db r).find? (fun q => q.pk == pk)

/-- The single-record read access the code actually grants: the record lies
in the requester's base queryset. -/
def canRead_code (r : Request) (q : DataQuery) : Bool :=
  if hasAuthUser r then q.user == r.user
  else if truthyKey r.session_key then q.session_key == r.session_key
  else false

/-- Formalisation of the spec's words for `canRead` (claim C1): owner, or a
resolved user in `shared_with`, or public, or a session record whose
`session_key` matches the requester's. -/
def canRead_spec (r : Request) (q : DataQuery) : Bool :=
  (hasAuthUser r && q.user == r.user) ||
  (hasAuthUser r && q.shared_users.any (fun u => some u.id == requestUserPk r)) ||
  q.public ||
  (q.session && truthyKey r.session_key && q.session_key == r.session_key)

/-- Helper: the table has at most one row per pk. -/
abbrev uniquePks (db : List DataQuery) : Prop :=
  ∀ q₁ ∈ db, ∀ q₂ ∈ db, q₁.pk = q₂.pk → q₁ = q₂

/-- Ordering relation of `order_by('-accessed')`: accessed time,
descending.  Row order on ties is not specified by the ORM call; the
embedding fixes it as a stable sort of the table order. -/
def accDesc (a b : DataQuery) : Prop :=
  b.accessed ≤ a.accessed

instance : DecidableRel accDesc := fun _ _ => Nat.decLe _ _

instance : IsTotal DataQuery accDesc :=
  ⟨fun a b => Nat.le_total b.accessed a.accessed⟩

instance : IsTrans DataQuery accDesc :=
  ⟨fun _ _ _ hab hbc => Nat.le_trans hbc hab⟩

/-- QueriesResource.get_queryset (query.py lines 104–112): for an
authenticated user the disjunction `Q(user=request.user) |
Q(shared_users__pk=request.user.pk)`, for a session the filter
`Q(session_key=...)`, both ordered by `-accessed` and made distinct; for
anyone else, the base queryset (which is empty for them). -/
def queries_get_queryset (db : List DataQuery) (r : Request) : List DataQuery :=
  if hasAuthUser r then
    ((db.filter (fun q =>
      q.user == r.user ||
        q.shared_users.any (fun u => some u.id == requestUserPk r))).insertionSort
          accDesc).dedup
  else if truthyKey r.session_key then
    ((db.filter (fun q => q.session_key == r.session_key)).insertionSort accDesc).dedup
  else
    get_queryset db r

/-- PublicQueriesResource.get_queryset (query.py lines 233–237): all rows
with `public=True`, ordered by `-accessed`, distinct; the requester's
identity is never consulted. -/
def public_get_queryset (db : List DataQuery) (_r : Request) : List DataQuery :=
  ((db.filter (fun q => q.public)).insertionSort accDesc).dedup

/-- QueryForksResource.requestor_can_fork (query.py lines 200–213): public,
or an authenticated user who is the owner or appears (by pk) in
`shared_users`. -/
def requestor_can_fork (r : Request) (inst : DataQuery) : Bool :=
  if inst.public then true
  else if hasAuthUser r then
    inst.user == r.user || inst.shared_users.any (fun u => some u.id == requestUserPk r)
  else false

/-- QueryForksResource.post (query.py lines 136–157): on a permitted fork,
build a new `DataQuery` copying `name`, `description`, `view_json`,
`context_json` and setting `parent` to the source; then
`if getattr(request, 'user', None): fork.user = request.user`
`elif request.session.session_key: fork.session_key = ...`.
Note the user branch tests only presence of the attribute, not
`is_authenticated()`.  All other fields keep the model defaults (not
public, not a session record, no shared users). -/
def fork_post (r : Request) (inst : DataQuery) (newPk : Nat) (now : Nat) :
    Option DataQuery :=
  if requestor_can_fork r inst then
    some { pk := newPk
           user := if r.user.isSome then r.user else none
           session_key :=
             if r.user.isSome then none
             else if truthyKey r.session_key then r.session_key else none
           session := false
           public := false
           shared_users := []
           parent := some inst.pk
           accessed := now
           name := inst.name
           description := inst.description
           view_json := inst.view_json
           context_json := inst.context_json }
  else none

/-- Serialized form of a query after `query_posthook` ran, restricted to
the fields the posthook decides: the computed `is_owner` flag and the
`shared_users` entry, which is `none` when the posthook deleted it. -/
structure QueryData where
  is_owner : Bool
  shared_users : Option (List Nat)
deriving DecidableEq

/-- The test `getattr(instance, 'user', None) and instance.user.is_authenticated()`
on a record's owner field. -/
def instanceHasAuthUser (q : DataQuery) : Bool :=
  match q.user with
  | some u => u.is_auth
  | none => false

/-- query_posthook (query.py lines 28–47): `is_owner` is user equality when
the record carries an authenticated user, else equality of the record's
`session_key` with the request session's; `shared_users` is deleted from
the payload whenever `is_owner` is false. -/
def query_posthook (inst : DataQuery) (r : Request) : QueryData :=
  let owner : Bool :=
    if instanceHasAuthUser inst then inst.user == r.user
    else inst.session_key == r.session_key
  { is_owner := owner
    shared_users := if owner then some (inst.shared_users.map PyUser.id) else none }

/-- An observable side effect of a delete handler. -/
inductive Effect where
  | sendMail (recipients : List String) (subject : String) (body : String)
  | deleteRecord (pk : Nat)
  | usageLog (action : String) (pk : Nat)
deriving DecidableEq

/-- Outcome of QueryResource.delete, as the HTTP boundary sees it. -/
inductive QueryDeleteOutcome where
  | notFound
  | badRequest
  | noContent
deriving DecidableEq

/-- DELETE_QUERY_EMAIL_TITLE (query.py line 22) with the record name
substituted for the placeholder. -/
def DELETE_QUERY_EMAIL_TITLE (name : String) : String :=
  "\x27" ++ name ++ "\x27 has been deleted"

/-- DELETE_QUERY_EMAIL_BODY (query.py lines 23–25) with the record name
substituted for the placeholder. -/
def DELETE_QUERY_EMAIL_BODY (name : String) : String :=
  "The query named \x27" ++ name ++ "\x27 has been deleted. You are\n" ++
  " being notified because this query was shared with you. This query is no\n" ++
  " longer available."

/-- QueryResource.delete (query.py lines 285–296), including the
`is_not_found` lookup that runs first: 404 when `get_object` finds
nothing; 400 and no effect when the record has `session=True`; otherwise
`send_mail` to the shared users' emails, then row deletion, then the usage
log, answering 204.  Returns the updated table, the effect trace in
program order, and the outcome. -/
def query_delete (db : List DataQuery) (r : Request) (pk : Nat) :
    List DataQuery × List Effect × QueryDeleteOutcome :=
  match get_object db r pk with
  | none => (db, [], .notFound)
  | some inst =>
    if inst.session then (db, [], .badRequest)
    else
      (db.filter (fun q => !(q.pk == inst.pk)),
       [.sendMail (inst.shared_users.map PyUser.email)
          (DELETE_QUERY_EMAIL_TITLE inst.name) (DELETE_QUERY_EMAIL_BODY inst.name),
        .deleteRecord inst.pk,
        .usageLog "delete" inst.pk],
       .noContent)

/-- Formalisation of the spec's words for `canMutate` (used by claim C5):
owner, or a session record whose `session_key` matches the requester's. -/
def canMutate_spec (r : Request) (q : DataQuery) : Bool :=
  (hasAuthUser r && q.user == r.user) ||
  (q.session && truthyKey r.session_key && q.session_key == r.session_key)

/-- A `DataView` row with the fields the serrano view resources touch. -/
structure DataView where
  pk : Nat
  user : Option PyUser
  session_key : Option String
  session : Bool
  accessed : Nat
  json : String
deriving DecidableEq

/-- ViewBase.get_queryset (view.py lines 42–55): same shape as the query
base queryset. -/
def view_get_queryset (db : List DataView) (r : Request) : List DataView :=
  if hasAuthUser r then
    db.filter (fun v => v.user == r.user)
  else if truthyKey r.session_key then
    db.filter (fun v => v.session_key == r.session_key)
  else
    []

/-- ViewResource.get_object (view.py lines 105–117), pk branch. -/
def view_get_object (db : List DataView) (r : Request) (pk : Nat) : Option DataView :=
  (view_get_queryset db r).find? (fun v => v.pk == pk)

/-- Outcome of ViewResource.delete.  `nameError` is the uncaught Python
`NameError` raised by `usage.log('delete', instance=instance, ...)`, where
the name `instance` is bound nowhere in the function. -/
inductive ViewDeleteOutcome where
  | notFound
  | badRequest
  | noContent
  | nameError
deriving DecidableEq

/-- ViewResource.delete (view.py lines 144–149), including the
`is_not_found` lookup: 404 when `get_object` finds nothing; 400 and no
effect for a `session=True` record; otherwise `request.instance.delete()`
removes the row, after which evaluating the unbound name `instance` raises
`NameError`, so `HttpResponse(status=codes.no_content)` on line 149 is
never reached. -/
def view_delete (db : List DataView) (r : Request) (pk : Nat) :
    List DataView × ViewDeleteOutcome :=
  match view_get_object db r pk with
  | none => (db, .notFound)
  | some inst =>
    if inst.session then (db, .badRequest)
    else (db.filter (fun v => !(v.pk == inst.pk)), .nameError)

/-- A revision row as the view revision resources read it: primary key,
the id of the view it snapshots, and the stored content snapshot. -/
structure Revision where
  pk : Nat
  object_id : Nat
  data : String
deriving DecidableEq

/-- ViewRevisionResource.get_object (view.py lines 187–198):
`queryset.get(pk=revision_pk, object_id=object_pk)` — the revision must
both exist and belong to the requested view id.  The queryset it draws
from comes from `RevisionResource.get_queryset` in
`serrano/resources/base.py`, which is not among the available sources;
modelled from the spec: the revisions visible to the requesting identity,
taken here as the list `revs`. -/
def viewRevision_get_object (revs : List Revision) (object_pk revision_pk : Nat) :
    Option Revision :=
  revs.find? (fun v => v.pk == revision_pk && v.object_id == object_pk)

/-- RevisionViewResource.get (view.py lines 210–216), the endpoint
documented as "retrieving a view as it existed at a specific revision":
its body is `pass`, so it returns `None` and never produces a snapshot. -/
def revisionView_get (_revs : List Revision) (_object_pk _revision_pk : Nat) :
    Option String :=
  none

/-! Helper lemmas about the base queryset and single-record lookup. -/

lemma mem_get_queryset {db : List DataQuery} {r : Request} {q : DataQuery} :
    q ∈ get_queryset db r ↔ q ∈ db ∧ canRead_code r q = true := by
  unfold get_queryset canRead_code
  cases ha : hasAuthUser r <;> cases hk : truthyKey r.session_key <;>
    simp [ha, hk, List.mem_filter]

lemma get_object_mem {db : List DataQuery} {r : Request} {pk : Nat} {q : DataQuery}
    (h : get_object db r pk = some q) :
    q ∈ db ∧ q.pk = pk ∧ canRead_code r q = true := by
  have hmem := List.mem_of_find?_eq_some h
  have hpk := List.find?_some h
  rw [mem_get_queryset] at hmem
  exact ⟨hmem.1, by simpa using hpk, hmem.2⟩

lemma get_object_isSome {db : List DataQuery} {r : Request} {pk : Nat} :
    (get_object db r pk).isSome = true ↔
      ∃ q ∈ db, q.pk = pk ∧ canRead_code r q = true := by
  unfold get_object
  rw [List.find?_isSome]
  constructor
  · rintro ⟨x, hx, hpk⟩
    rw [mem_get_queryset] at hx
    exact ⟨x, hx.1, by simpa using hpk, hx.2⟩
  · rintro ⟨x, hxdb, hpk, hread⟩
    exact ⟨x, mem_get_queryset.mpr ⟨hxdb, hread⟩, by simpa using hpk⟩

/-! Concrete inputs for claim C1. -/

def c1Owner : PyUser := ⟨1, "owner@example.com", true⟩

def c1Reader : PyUser := ⟨2, "reader@example.com", true⟩

def c1PublicQuery : DataQuery :=
  { pk := 1, user := some c1Owner, session_key := none, session := false
    public := true, shared_users := [], parent := none, accessed := 0
    name := "q", description := "", view_json := "[]", context_json := "[]" }

def c1ReaderRequest : Request := { user := some c1Reader, session_key := none }

/-- C1 fails on the code: the record is public, so the spec's `canRead`
grants the read to an authenticated non-owner, but the single-record read
path draws from the owner/session-only base queryset and returns nothing
for that requester. -/
theorem c1_counterexample :
    canRead_spec c1ReaderRequest c1PublicQuery = true ∧
    get_object [c1PublicQuery] c1ReaderRequest 1 = none := by
  decide

/-- C1 as amended: a single-record read of R by I succeeds exactly when I
is an authenticated user equal to R's owner, or I is unauthenticated with
a non-empty session key equal to R's `session_key`; `shared_with`,
`is_public` and `is_session` play no role on this path. -/
theorem c1_read_characterization (db : List DataQuery) (r : Request) (q : DataQuery)
    (hu : uniquePks db) (hq : q ∈ db) :
    get_object db r q.pk = some q ↔ canRead_code r q = true := by
  constructor
  · intro h
    exact (get_object_mem h).2.2
  · intro h
    have hs : (get_object db r q.pk).isSome = true :=
      get_object_isSome.mpr ⟨q, hq, rfl, h⟩
    obtain ⟨q', hq'⟩ := Option.isSome_iff_exists.mp hs
    obtain ⟨hq'db, hq'pk, _⟩ := get_object_mem hq'
    rwa [hu q' hq'db q hq hq'pk] at hq'

def c1OwnedQuery : DataQuery :=
  { pk := 7, user := some c1Owner, session_key := none, session := false
    public := false, shared_users := [], parent := none, accessed := 0
    name := "mine", description := "", view_json := "[]", context_json := "[]" }

def c1OwnerRequest : Request := { user := some c1Owner, session_key := none }

/-- C1 witness: the owner reads their own record through the amended
characterisation. -/
theorem c1_read_characterization_witness :
    get_object [c1OwnedQuery] c1OwnerRequest c1OwnedQuery.pk = some c1OwnedQuery :=
  (c1_read_characterization [c1OwnedQuery] c1OwnerRequest c1OwnedQuery
    (by decide) (by simp)).mpr (by decide)

/-! Concrete inputs for claim C2. -/

def c2Revision : Revision := ⟨1, 1, "snapshot-json"⟩

/-- C2: the strict lookup finds revision 1 of view 1 and rejects the same
revision id under a different view id, but the endpoint documented as
returning the view as it existed at that revision returns nothing even
when the revision exists and belongs — its body is `pass`. -/
theorem c2_reconstruct_stub :
    viewRevision_get_object [c2Revision] 1 1 = some c2Revision ∧
    viewRevision_get_object [c2Revision] 2 1 = none ∧
    revisionView_get [c2Revision] 1 1 = none := by
  decide

/-! Concrete inputs for claim C3. -/

def c3AnonUser : PyUser := ⟨0, "", false⟩

def c3Owner : PyUser := ⟨1, "owner@example.com", true⟩

def c3PublicQuery : DataQuery :=
  { pk := 1, user := some c3Owner, session_key := none, session := false
    public := true, shared_users := [], parent := none, accessed := 0
    name := "pq", description := "d", view_json := "[1]", context_json := "[2]" }

def c3SessionRequest : Request :=
  { user := some c3AnonUser, session_key := some "abc123" }

/-- C3: a session identity (request.user present but unauthenticated,
session key "abc123") forks a public query.  Content, parent, public flag
and shared set follow the claim, but because `post` tests only
`getattr(request, 'user', None)` — not `is_authenticated()` — the fork's
`user` is set to the unauthenticated request user and its `session_key`
stays unset, instead of `session_key = "abc123"` with no owner. -/
theorem c3_fork_assignment :
    (fork_post c3SessionRequest c3PublicQuery 2 7).map
        (fun f => (f.user, f.session_key, f.parent, f.public, f.shared_users,
                   f.name, f.description, f.view_json, f.context_json)) =
      some (some c3AnonUser, none, some 1, false, [],
            "pq", "d", "[1]", "[2]") := by
  rfl

/-- C4: `requestor_can_fork` is exactly the claimed predicate — public, or
an authenticated (resolved) user who owns the record or appears by pk in
its shared users; in every other case, in particular for anonymous and
session identities on non-public records, forking is denied. -/
theorem c4_can_fork_iff (r : Request) (inst : DataQuery) :
    requestor_can_fork r inst = true ↔
      (inst.public = true ∨
        (hasAuthUser r = true ∧
          (inst.user = r.user ∨
            ∃ u ∈ inst.shared_users, some u.id = requestUserPk r))) := by
  unfold requestor_can_fork
  cases hp : inst.public <;> cases ha : hasAuthUser r <;>
    simp [hp, ha, List.any_eq_true]

/-! Concrete inputs for claim C5. -/

def c5SessionOwnedQuery : DataQuery :=
  { pk := 1, user := none, session_key := some "sess-key", session := false
    public := false, shared_users := [], parent := none, accessed := 0
    name := "n", description := "", view_json := "", context_json := "" }

def c5SessionRequest : Request := { user := none, session_key := some "sess-key" }

/-- C5 fails on the code: a non-session record created by an anonymous
session (matching `session_key`, no owner) is deleted successfully by that
session, although the spec's `canMutate` — owner, or session record with
matching key — is false for it. -/
theorem c5_counterexample :
    canMutate_spec c5SessionRequest c5SessionOwnedQuery = false ∧
    (query_delete [c5SessionOwnedQuery] c5SessionRequest 1).2.2 =
      QueryDeleteOutcome.noContent := by
  decide

/-- C5 as amended: a delete attempt on a record with `session=True` always
answers 400 and leaves the table untouched; delete succeeds exactly when
the record lies in the requester's base queryset (authenticated user equal
to the owner, or matching session key) and `session` is false. -/
theorem c5_delete_characterization (db : List DataQuery) (r : Request) (pk : Nat)
    (hu : uniquePks db) :
    ((query_delete db r pk).2.2 = QueryDeleteOutcome.noContent ↔
      ∃ q ∈ db, q.pk = pk ∧ canRead_code r q = true ∧ q.session = false) ∧
    (∀ q, get_object db r pk = some q → q.session = true →
      query_delete db r pk = (db, [], QueryDeleteOutcome.badRequest)) := by
  refine ⟨⟨?_, ?_⟩, ?_⟩
  · intro h
    unfold query_delete at h
    cases hobj : get_object db r pk with
    | none => rw [hobj] at h; simp at h
    | some inst =>
      rw [hobj] at h
      by_cases hs : inst.session
      · simp [hs] at h
      · obtain ⟨hdb, hpk, hread⟩ := get_object_mem hobj
        exact ⟨inst, hdb, hpk, hread, by simpa using hs⟩
  · rintro ⟨q, hqdb, hpk, hread, hsess⟩
    have hs : (get_object db r pk).isSome = true :=
      get_object_isSome.mpr ⟨q, hqdb, hpk, hread⟩
    obtain ⟨q', hq'⟩ := Option.isSome_iff_exists.mp hs
    obtain ⟨hq'db, hq'pk, _⟩ := get_object_mem hq'
    have heq : q' = q := hu q' hq'db q hqdb (hq'pk.trans hpk.symm)
    subst heq
    unfold query_delete
    rw [hq']
    simp [hsess]
  · intro q hobj hsess
    unfold query_delete
    rw [hobj]
    simp [hsess]

def c5Owner : PyUser := ⟨5, "own5@example.com", true⟩

def c5OwnedQuery : DataQuery :=
  { pk := 9, user := some c5Owner, session_key := none, session := false
    public := false, shared_users := [], parent := none, accessed := 0
    name := "w", description := "", view_json := "", context_json := "" }

def c5OwnerRequest : Request := { user := some c5Owner, session_key := none }

/-- C5 witness: the owner deletes their own non-session record through the
amended characterisation. -/
theorem c5_delete_characterization_witness :
    (query_delete [c5OwnedQuery] c5OwnerRequest 9).2.2 =
      QueryDeleteOutcome.noContent :=
  (c5_delete_characterization [c5OwnedQuery] c5OwnerRequest 9 (by decide)).1.mpr
    ⟨c5OwnedQuery, by simp, by decide, by decide, by decide⟩

/-- C6: every successful delete of a non-session query produces the effect
trace mail–delete–log: exactly one notification, addressed to the emails
of the record's shared users, and emitted before the row deletion — the
recipient list is computed from the record as it stands before the delete. -/
theorem c6_delete_notification (db : List DataQuery) (r : Request) (pk : Nat)
    (inst : DataQuery) (hfound : get_object db r pk = some inst)
    (hsess : inst.session = false) :
    (query_delete db r pk).2.1 =
      [Effect.sendMail (inst.shared_users.map PyUser.email)
         (DELETE_QUERY_EMAIL_TITLE inst.name) (DELETE_QUERY_EMAIL_BODY inst.name),
       Effect.deleteRecord inst.pk,
       Effect.usageLog "delete" inst.pk] ∧
    (query_delete db r pk).2.1.countP
      (fun e => match e with | .sendMail _ _ _ => true | _ => false) = 1 := by
  unfold query_delete
  rw [hfound]
  simp [hsess, List.countP_cons, List.countP_nil]

def c6Owner : PyUser := ⟨1, "o@example.com", true⟩

def c6Sharee1 : PyUser := ⟨2, "a@example.com", true⟩

def c6Sharee2 : PyUser := ⟨3, "b@example.com", true⟩

def c6SharedQuery : DataQuery :=
  { pk := 4, user := some c6Owner, session_key := none, session := false
    public := false, shared_users := [c6Sharee1, c6Sharee2], parent := none
    accessed := 0, name := "shared query", description := ""
    view_json := "", context_json := "" }

def c6OwnerRequest : Request := { user := some c6Owner, session_key := none }

/-- C6 witness: deleting a query shared with two users mails exactly those
two addresses before the row deletion. -/
theorem c6_delete_notification_witness :
    (query_delete [c6SharedQuery] c6OwnerRequest 4).2.1 =
      [Effect.sendMail (c6SharedQuery.shared_users.map PyUser.email)
         (DELETE_QUERY_EMAIL_TITLE c6SharedQuery.name)
         (DELETE_QUERY_EMAIL_BODY c6SharedQuery.name),
       Effect.deleteRecord c6SharedQuery.pk,
       Effect.usageLog "delete" c6SharedQuery.pk] ∧
    (query_delete [c6SharedQuery] c6OwnerRequest 4).2.1.countP
      (fun e => match e with | .sendMail _ _ _ => true | _ => false) = 1 :=
  c6_delete_notification [c6SharedQuery] c6OwnerRequest 4 c6SharedQuery
    (by decide) (by decide)

/-! Concrete inputs for claim C7. -/

def c7User : PyUser := ⟨1, "u@example.com", true⟩

def c7TiedQuery1 : DataQuery :=
  { pk := 1, user := some c7User, session_key := none, session := false
    public := false, shared_users := [], parent := none, accessed := 5
    name := "older", description := "", view_json := "", context_json := "" }

def c7TiedQuery2 : DataQuery :=
  { pk := 2, user := some c7User, session_key := none, session := false
    public := false, shared_users := [], parent := none, accessed := 5
    name := "newer", description := "", view_json := "", context_json := "" }

def c7UserRequest : Request := { user := some c7User, session_key := none }

/-- C7 fails on the code: two owned records tied on `accessed` come back in
table order (pk 1 before pk 2), because `order_by('-accessed')` names no
secondary key — the listing is not ordered with ties broken by id
descending as claimed. -/
theorem c7_counterexample :
    (queries_get_queryset [c7TiedQuery1, c7TiedQuery2] c7UserRequest).map
        DataQuery.pk = [1, 2] ∧
    ¬ (queries_get_queryset [c7TiedQuery1, c7TiedQuery2] c7UserRequest).Pairwise
        (fun a b => b.accessed < a.accessed ∨
          (b.accessed = a.accessed ∧ b.pk < a.pk)) := by
  decide

/-- C7 as amended: for an authenticated user the "my records" listing
contains exactly the records owned by or shared with that user, without
duplicates, ordered by `accessed` descending; the order of records tied on
`accessed` is left to the storage layer (here: stable in table order), not
broken by id descending. -/
theorem c7_listing_characterization (db : List DataQuery) (r : Request)
    (ha : hasAuthUser r = true) (hnd : db.Nodup) :
    (∀ q, q ∈ queries_get_queryset db r ↔
      (q ∈ db ∧ (q.user = r.user ∨
        ∃ u ∈ q.shared_users, some u.id = requestUserPk r))) ∧
    (queries_get_queryset db r).Pairwise (fun a b => b.accessed ≤ a.accessed) ∧
    (queries_get_queryset db r).Nodup := by
  have hq : queries_get_queryset db r =
      ((db.filter (fun q => q.user == r.user ||
        q.shared_users.any (fun u => some u.id == requestUserPk r))).insertionSort
          accDesc).dedup := by
    unfold queries_get_queryset
    rw [ha]
    simp
  set l := db.filter (fun q => q.user == r.user ||
    q.shared_users.any (fun u => some u.id == requestUserPk r)) with hl
  have hlnd : l.Nodup := List.Nodup.filter _ hnd
  have hsndup : (l.insertionSort accDesc).Nodup :=
    (List.perm_insertionSort accDesc l).nodup_iff.mpr hlnd
  have hded : (l.insertionSort accDesc).dedup = l.insertionSort accDesc :=
    List.dedup_eq_self.mpr hsndup
  refine ⟨?_, ?_, ?_⟩
  · intro q
    rw [hq, hded, (List.perm_insertionSort accDesc l).mem_iff, hl,
      List.mem_filter]
    simp [List.any_eq_true]
  · rw [hq, hded]
    exact List.sorted_insertionSort accDesc l
  · rw [hq, hded]
    exact hsndup

/-- C7 witness: a single owned record appears in its owner's listing, which
is duplicate-free. -/
theorem c7_listing_characterization_witness :
    c7TiedQuery1 ∈ queries_get_queryset [c7TiedQuery1] c7UserRequest ∧
    (queries_get_queryset [c7TiedQuery1] c7UserRequest).Nodup :=
  ⟨((c7_listing_characterization [c7TiedQuery1] c7UserRequest (by decide)
      (by decide)).1 c7TiedQuery1).mpr ⟨by simp, Or.inl (by decide)⟩,
   (c7_listing_characterization [c7TiedQuery1] c7UserRequest (by decide)
      (by decide)).2.2⟩

/-! Concrete inputs for claim C8. -/

def c8PublicQuery : DataQuery :=
  { pk := 1, user := none, session_key := none, session := false
    public := true, shared_users := [], parent := none, accessed := 3
    name := "pub", description := "", view_json := "", context_json := "" }

def c8AnonRequest : Request := { user := none, session_key := none }

/-- C8 fails on the code: the public-queries listing filters on the
`public` flag alone and never consults the requester, so for the Anonymous
identity it returns the public record — not an empty collection. -/
theorem c8_counterexample :
    public_get_queryset [c8PublicQuery] c8AnonRequest = [c8PublicQuery] ∧
    public_get_queryset [c8PublicQuery] c8AnonRequest ≠ [] := by
  decide

/-- C8 as amended: for the Anonymous identity (no authenticated user, no
non-empty session key) the identity-scoped listings — the base queryset
and the "my records" listing — are empty; identity-independent listings
such as the public one are not. -/
theorem c8_anonymous_empty (db : List DataQuery) (r : Request)
    (hu : hasAuthUser r = false) (hk : truthyKey r.session_key = false) :
    get_queryset db r = [] ∧ queries_get_queryset db r = [] := by
  unfold queries_get_queryset get_queryset
  simp [hu, hk]

/-- C8 witness: a cookieless unauthenticated request sees empty
identity-scoped listings even over a non-empty table. -/
theorem c8_anonymous_empty_witness :
    get_queryset [c8PublicQuery] c8AnonRequest = [] ∧
    queries_get_queryset [c8PublicQuery] c8AnonRequest = [] :=
  c8_anonymous_empty [c8PublicQuery] c8AnonRequest (by decide) (by decide)

/-- C9: the serialized payload keeps `shared_users` exactly when the
posthook's ownership test holds — equality with the request user when the
record carries an authenticated owner, equality of the record's
`session_key` with the request session's otherwise; every requester
failing that test has `shared_users` deleted from the payload. -/
theorem c9_shared_users_iff (q : DataQuery) (r : Request) :
    ((query_posthook q r).shared_users).isSome = true ↔
      ((instanceHasAuthUser q = true ∧ q.user = r.user) ∨
        (instanceHasAuthUser q = false ∧ q.session_key = r.session_key)) := by
  unfold query_posthook
  cases h : instanceHasAuthUser q
  · by_cases hs : q.session_key = r.session_key <;> simp [h, hs]
  · by_cases ho : q.user = r.user <;> simp [h, ho]

/-! Concrete inputs for claim C10. -/

def c10User : PyUser := ⟨1, "v@example.com", true⟩

def c10View : DataView :=
  { pk := 1, user := some c10User, session_key := none, session := false
    accessed := 0, json := "[]" }

def c10Request : Request := { user := some c10User, session_key := none }

/-- C10: an authorized delete of a non-session view removes the row from
the table, after which evaluating the unbound name `instance` raises
`NameError` — the outcome is the uncaught exception, never the 204
no-content success response. -/
theorem c10_view_delete_name_error (db : List DataView) (r : Request) (pk : Nat)
    (inst : DataView) (hfound : view_get_object db r pk = some inst)
    (hsess : inst.session = false) :
    (view_delete db r pk).2 = ViewDeleteOutcome.nameError ∧
    (view_delete db r pk).2 ≠ ViewDeleteOutcome.noContent ∧
    (∀ v, v ∈ (view_delete db r pk).1 ↔ (v ∈ db ∧ v.pk ≠ inst.pk)) := by
  unfold view_delete
  rw [hfound]
  simp [hsess, List.mem_filter]

/-- C10 witness: the owner's delete of their view removes it and ends in
the `NameError` outcome. -/
theorem c10_view_delete_name_error_witness :
    (view_delete [c10View] c10Request 1).2 = ViewDeleteOutcome.nameError ∧
    c10View ∉ (view_delete [c10View] c10Request 1).1 := by
  have h := c10_view_delete_name_error [c10View] c10Request 1 c10View
    (by decide) (by decide)
  exact ⟨h.1, fun hv => ((h.2.2 c10View).mp hv).2 rfl⟩

end Serrano
